import Mathlib

-- Verification of the CharmPay subscription-payment policy contract
-- (charm-pay-app/src/lib.rs) against its natural-language specification.
-- The contract is embedded shallowly: u64 arithmetic is Nat with explicit
-- wrapping (mod 2^64) where the source subtracts, panics are modelled as
-- Option.none, and the host-runtime capabilities (payload decoding,
-- charm projection, token-amount summation, SHA-256) are modelled from the
-- specification's interface-boundary description.

namespace CharmPay

-- ## Machine-integer helpers

/-- 2^32, the modulus of u32 arithmetic. -/
def two32 : Nat := 4294967296

/-- 2^64, the modulus of u64 arithmetic. -/
def two64 : Nat := 18446744073709551616

/-- Wrapping u64 subtraction: the value of the Rust expression a - b on u64
operands in a release build (two's-complement wraparound modulo 2^64). -/
def sub64 (a b : Nat) : Nat := (two64 + a - b % two64) % two64

-- ## SHA-256 (the external sha2 crate's Sha256::digest)
-- Modelled from the spec: "computes the SHA-256 digest of the UTF-8 bytes
-- of text and returns it as a 32-byte digest value" (section 4.2).  This is
-- a direct executable implementation of FIPS 180-4 SHA-256 over byte lists.

/-- Right-rotation of a 32-bit word. -/
def rotr32 (n x : Nat) : Nat := ((x >>> n) ||| (x <<< (32 - n))) % two32

/-- SHA-256 Ch function. -/
def ch32 (e f g : Nat) : Nat := (e &&& f) ^^^ ((e ^^^ 4294967295) &&& g)

/-- SHA-256 Maj function. -/
def maj32 (a b c : Nat) : Nat := (a &&& b) ^^^ (a &&& c) ^^^ (b &&& c)

/-- SHA-256 big Sigma0. -/
def bigSig0 (x : Nat) : Nat := (rotr32 2 x) ^^^ ((rotr32 13 x) ^^^ (rotr32 22 x))

/-- SHA-256 big Sigma1. -/
def bigSig1 (x : Nat) : Nat := (rotr32 6 x) ^^^ ((rotr32 11 x) ^^^ (rotr32 25 x))

/-- SHA-256 small sigma0. -/
def schedSig0 (x : Nat) : Nat := (rotr32 7 x) ^^^ ((rotr32 18 x) ^^^ (x >>> 3))

/-- SHA-256 small sigma1. -/
def schedSig1 (x : Nat) : Nat := (rotr32 17 x) ^^^ ((rotr32 19 x) ^^^ (x >>> 10))

/-- The 64 SHA-256 round constants. -/
def sha256K : List Nat :=
  [1116352408, 1899447441, 3049323471, 3921009573, 961987163,
   1508970993, 2453635748, 2870763221, 3624381080, 310598401,
   607225278, 1426881987, 1925078388, 2162078206, 2614888103,
   3248222580, 3835390401, 4022224774, 264347078, 604807628,
   770255983, 1249150122, 1555081692, 1996064986, 2554220882,
   2821834349, 2952996808, 3210313671, 3336571891, 3584528711,
   113926993, 338241895, 666307205, 773529912, 1294757372,
   1396182291, 1695183700, 1986661051, 2177026350, 2456956037,
   2730485921, 2820302411, 3259730800, 3345764771, 3516065817,
   3600352804, 4094571909, 275423344, 430227734, 506948616,
   659060556, 883997877, 958139571, 1322822218, 1537002063,
   1747873779, 1955562222, 2024104815, 2227730452, 2361852424,
   2428436474, 2756734187, 3204031479, 3329325298]

/-- The SHA-256 initial hash value. -/
def sha256IV : List Nat :=
  [1779033703, 3144134277, 1013904242, 2773480762, 1359893119,
   2600822924, 528734635, 1541459225]

/-- A natural number as 8 big-endian bytes (the SHA-256 length field). -/
def be64 (n : Nat) : List Nat :=
  [(n >>> 56) % 256, (n >>> 48) % 256, (n >>> 40) % 256, (n >>> 32) % 256,
   (n >>> 24) % 256, (n >>> 16) % 256, (n >>> 8) % 256, n % 256]

/-- SHA-256 padding: append 0x80, zero bytes, and the 64-bit message bit
length, reaching a multiple of 64 bytes. -/
def sha256pad (msg : List Nat) : List Nat :=
  msg ++ 128 :: (List.replicate ((119 - msg.length % 64) % 64) 0 ++ be64 (8 * msg.length))

/-- The big-endian 32-bit word starting at byte offset j. -/
def word32At (bytes : List Nat) (j : Nat) : Nat :=
  (bytes.getD j 0 <<< 24) ||| (bytes.getD (j + 1) 0 <<< 16) |||
  (bytes.getD (j + 2) 0 <<< 8) ||| bytes.getD (j + 3) 0

/-- Extend the 16 message-schedule words of a block to 64. -/
def extendW (w16 : List Nat) : List Nat :=
  (List.range 48).foldl
    (fun w _ =>
      let i := w.length
      w ++ [(schedSig1 (w.getD (i - 2) 0) + w.getD (i - 7) 0 +
             schedSig0 (w.getD (i - 15) 0) + w.getD (i - 16) 0) % two32])
    w16

/-- One SHA-256 compression round on the 8-word working state. -/
def sha256round (st : List Nat) (kw : Nat × Nat) : List Nat :=
  match st with
  | [a, b, c, d, e, f, g, h] =>
    let t1 := (h + bigSig1 e + ch32 e f g + kw.1 + kw.2) % two32
    let t2 := (bigSig0 a + maj32 a b c) % two32
    [(t1 + t2) % two32, a, b, c, (d + t1) % two32, e, f, g]
  | st => st

/-- Compress one 512-bit block into the running hash state. -/
def sha256block (h0 : List Nat) (w16 : List Nat) : List Nat :=
  let st := (sha256K.zip (extendW w16)).foldl sha256round h0
  (h0.zip st).map (fun p => (p.1 + p.2) % two32)

/-- SHA-256 of a byte list, as the list of the 32 digest bytes. -/
def sha256bytes (msg : List Nat) : List Nat :=
  let padded := sha256pad msg
  let final := (List.range (padded.length / 64)).foldl
    (fun h i => sha256block h ((List.range 16).map (fun k => word32At padded (64 * i + 4 * k))))
    sha256IV
  final.foldr
    (fun w acc => (w >>> 24) % 256 :: (w >>> 16) % 256 :: (w >>> 8) % 256 :: w % 256 :: acc) []

/-- UTF-8 encoding of one character. -/
def utf8Char (c : Char) : List Nat :=
  let n := c.toNat
  if n < 128 then [n]
  else if n < 2048 then [192 ||| (n >>> 6), 128 ||| (n &&& 63)]
  else if n < 65536 then
    [224 ||| (n >>> 12), 128 ||| ((n >>> 6) &&& 63), 128 ||| (n &&& 63)]
  else
    [240 ||| (n >>> 18), 128 ||| ((n >>> 12) &&& 63), 128 ||| ((n >>> 6) &&& 63), 128 ||| (n &&& 63)]

/-- The UTF-8 bytes of a string. -/
def strBytes (s : String) : List Nat := (s.data.map utf8Char).flatten

/-- A 32-byte digest value (the charms-sdk B32), as its list of bytes. -/
abbrev B32 := List Nat

/-- fn hash(data: &str) -> B32 (lib.rs lines 128-131): the SHA-256 digest of
the UTF-8 bytes of the argument. -/
def hash (data : String) : B32 := sha256bytes (strBytes data)

-- ## Data model (lib.rs lines 7-71)

/-- Minimal subscription state for CharmPay: the current certificate payload
(lib.rs lines 9-38).  u64/u32 fields are Nat. -/
structure MinimalSubscriptionState where
  payer_pubkey : String
  merchant_pubkey : String
  amount_sats : Nat
  billing_interval_blocks : Nat
  last_payment_block : Nat
  is_active : Bool
  remaining_balance : Nat
deriving DecidableEq

/-- Subscription state stored in NFT, backward compatible (lib.rs lines 42-54). -/
structure SubscriptionState where
  subscription_id : String
  recipient : String
  amount_per_cycle : Nat
  remaining_balance : Nat
  total_locked : Nat
deriving DecidableEq

/-- Legacy NFT content structure (lib.rs lines 58-62). -/
structure NftContent where
  ticker : String
  remaining : Nat
deriving DecidableEq

/-- impl From of SubscriptionState for NftContent (lib.rs lines 64-71). -/
def nftContentOfSubscriptionState (state : SubscriptionState) : NftContent :=
  { ticker := "SUBSCRIPTION-" ++ state.subscription_id
    remaining := state.remaining_balance }

/-- A ledger-output identifier (charms-sdk UtxoId): a 64-hex-character
transaction id together with a u32 output index. -/
structure UtxoId where
  txid : String
  vout : Nat
deriving DecidableEq

/-- True for a lowercase hexadecimal digit. -/
def isHexChar (c : Char) : Bool :=
  (48 ≤ c.toNat && c.toNat ≤ 57) || (97 ≤ c.toNat && c.toNat ≤ 102)

/-- True for a decimal digit. -/
def isDecChar (c : Char) : Bool := 48 ≤ c.toNat && c.toNat ≤ 57

/-- The value of a decimal digit list. -/
def decNat (cs : List Char) : Nat := cs.foldl (fun a c => a * 10 + (c.toNat - 48)) 0

/-- Splitting a character list at colons (an executable structural-recursion
equivalent of splitting the string at each colon). -/
def splitColon : List Char → List Char → List (List Char)
  | [], acc => [acc.reverse]
  | c :: rest, acc =>
    if c = ':' then acc.reverse :: splitColon rest []
    else splitColon rest (c :: acc)

/-- Modelled from the spec: UtxoId parsing by the external charms-sdk, spec
section 3: a ledger-output identifier is parsed from the literal textual form
of a 64-hex-character transaction id, a colon, and a decimal output index
(a u32). -/
def UtxoId.from_str (s : String) : Option UtxoId :=
  match splitColon s.data [] with
  | [t, v] =>
    if t.length == 64 && t.all isHexChar &&
       (!v.isEmpty) && v.all isDecChar && decide (decNat v < two32) then
      some ⟨String.mk t, decNat v⟩
    else none
  | _ => none

/-- A payload envelope (charms-sdk Data), modelled from the spec, section 3:
an opaque typed value supporting attempted decode into each record shape the
contract requests (yielding no value if the shape does not match), equality
comparison, and a distinguished empty sentinel.  blob distinguishes payloads
that decode as nothing. -/
structure Data where
  blob : Nat
  asStr : Option String
  asMinimal : Option MinimalSubscriptionState
  asNft : Option NftContent
  asU64 : Option Nat
deriving DecidableEq

/-- The distinguished empty payload sentinel (Data::empty()). -/
def Data.empty : Data := ⟨0, none, none, none, none⟩

/-- The NFT application tag (charms-sdk NFT). -/
def NFT : Char := 'n'

/-- The TOKEN application tag (charms-sdk TOKEN). -/
def TOKEN : Char := 't'

/-- An application descriptor (charms-sdk App): tag, identity, verification
key. -/
structure App where
  tag : Char
  identity : B32
  vk : String
deriving DecidableEq

/-- The charms attached to one transaction output: a finite map from
application descriptors to payloads, modelled as an association list. -/
abbrev Charms := List (App × Data)

/-- A transaction descriptor (charms-sdk Transaction): the consumed outputs
with their identifiers, and the produced outputs. -/
structure Transaction where
  ins : List (UtxoId × Charms)
  outs : List Charms
deriving DecidableEq

/-- Lookup of the payload a charms map assigns to an application. -/
def charmsGet (app : App) (cs : Charms) : Option Data :=
  (cs.find? (fun p => p.1 == app)).map (fun p => p.2)

/-- Modelled from the spec: charms-sdk charm_values, spec section 6(b): given
an application descriptor and a sequence of charms maps, yield the payloads
tagged as belonging to that application. -/
def charm_values (app : App) (l : List Charms) : List Data :=
  l.filterMap (charmsGet app)

/-- Modelled from the spec: charms-sdk sum_token_amount, spec section 6(c):
the sum of fungible amounts tagged to the given application across a sequence
of charms maps, failing if any relevant payload cannot be interpreted as an
amount. -/
def sum_token_amount (app : App) (l : List Charms) : Option Nat :=
  l.foldl
    (fun acc cs =>
      match acc, charmsGet app cs with
      | some a, some d =>
        match d.asU64 with
        | some n => some (a + n)
        | none => none
      | some a, none => some a
      | none, _ => none)
    (some 0)

/-- The payload values of the consumed outputs (tx.ins.iter().map of the
second component). -/
def insCharms (tx : Transaction) : List Charms := tx.ins.map (fun p => p.2)

/-- The paired NFT application of a TOKEN application (same identity and
verification key, tag NFT). -/
def nftAppOf (token_app : App) : App := ⟨NFT, token_app.identity, token_app.vk⟩

/-- The paired TOKEN application of an NFT application (same identity and
verification key, tag TOKEN). -/
def tokenAppOf (nft_app : App) : App := ⟨TOKEN, nft_app.identity, nft_app.vk⟩

-- ## Validators (lib.rs lines 73-323)

/-- fn can_mint_nft (lib.rs lines 99-126).  Result none models a panic: the
source unwraps UtxoId::from_str, so a witness string whose hash matches the
identity but which does not parse as a ledger-output identifier panics. -/
def can_mint_nft (nft_app : App) (tx : Transaction) (w : Data) : Option Bool :=
  match w.asStr with
  | none => some false
  | some w_str =>
    if hash w_str = nft_app.identity then
      match UtxoId.from_str w_str with
      | none => none
      | some w_utxo_id =>
        if tx.ins.any (fun p => p.1 == w_utxo_id) then
          match charm_values nft_app tx.outs with
          | [charm_data] =>
            if charm_data.asMinimal.isSome then some true
            else some charm_data.asNft.isSome
          | _ => some false
        else some false
    else some false

/-- fn can_mint_token (lib.rs lines 139-189).  The subtraction on line 177 is
u64 subtraction, embedded as sub64. -/
def can_mint_token (token_app : App) (tx : Transaction) : Bool :=
  let nft_app := nftAppOf token_app
  let incoming_nft := (charm_values nft_app (insCharms tx)).findSome? (fun d => d.asNft)
  match (charm_values nft_app tx.outs).findSome? (fun d => d.asNft) with
  | none => false
  | some outgoing_nft =>
    let outgoing_supply := outgoing_nft.remaining
    match sum_token_amount token_app (insCharms tx) with
    | none => false
    | some input_token_amount =>
      match sum_token_amount token_app tx.outs with
      | none => false
      | some output_token_amount =>
        match incoming_nft with
        | some inc =>
          let incoming_supply := inc.remaining
          decide (incoming_supply ≥ outgoing_supply) &&
            (sub64 output_token_amount input_token_amount ==
             sub64 incoming_supply outgoing_supply)
        | none =>
          (input_token_amount == 0) && (output_token_amount == outgoing_supply)

/-- fn validate_subscription_payment_full (lib.rs lines 252-295).  The
subtractions on lines 269 and 274 are u64 subtractions, embedded as sub64. -/
def validate_subscription_payment_full (in_state out_state : MinimalSubscriptionState)
    (token_app : App) (tx : Transaction) : Bool :=
  in_state.is_active &&
  out_state.is_active &&
  (in_state.payer_pubkey == out_state.payer_pubkey) &&
  (in_state.merchant_pubkey == out_state.merchant_pubkey) &&
  (in_state.amount_sats == out_state.amount_sats) &&
  (in_state.billing_interval_blocks == out_state.billing_interval_blocks) &&
  (sub64 in_state.remaining_balance out_state.remaining_balance == in_state.amount_sats) &&
  decide (in_state.remaining_balance ≥ out_state.remaining_balance) &&
  (out_state.remaining_balance == sub64 in_state.remaining_balance in_state.amount_sats) &&
  decide (out_state.last_payment_block ≥ in_state.last_payment_block) &&
  (match sum_token_amount token_app (insCharms tx), sum_token_amount token_app tx.outs with
   | some input_token_amount, some output_token_amount =>
     output_token_amount == input_token_amount
   | _, _ => false)

/-- fn can_execute_subscription_payment (lib.rs lines 192-249). -/
def can_execute_subscription_payment (token_app : App) (tx : Transaction) : Bool :=
  let nft_app := nftAppOf token_app
  match (charm_values nft_app (insCharms tx)).findSome? (fun d => d.asMinimal),
        (charm_values nft_app tx.outs).findSome? (fun d => d.asMinimal) with
  | some in_state, some out_state =>
    validate_subscription_payment_full in_state out_state token_app tx
  | _, _ =>
    match (charm_values nft_app (insCharms tx)).findSome? (fun d => d.asNft) with
    | none => false
    | some incoming_nft =>
      match (charm_values nft_app tx.outs).findSome? (fun d => d.asNft) with
      | none => false
      | some outgoing_nft =>
        decide (incoming_nft.remaining ≥ outgoing_nft.remaining) &&
          (match sum_token_amount token_app (insCharms tx),
                 sum_token_amount token_app tx.outs with
           | some input_token_amount, some output_token_amount =>
             output_token_amount == input_token_amount
           | _, _ => false)

/-- fn validate_subscription_cancellation (lib.rs lines 298-323).  The tx
parameter is unused in the source as well. -/
def validate_subscription_cancellation (in_state out_state : MinimalSubscriptionState)
    (_tx : Transaction) : Bool :=
  in_state.is_active &&
  (!out_state.is_active) &&
  (out_state.remaining_balance == 0) &&
  (in_state.payer_pubkey == out_state.payer_pubkey) &&
  (in_state.merchant_pubkey == out_state.merchant_pubkey) &&
  (in_state.amount_sats == out_state.amount_sats) &&
  (in_state.billing_interval_blocks == out_state.billing_interval_blocks)

/-- fn token_contract_satisfied (lib.rs lines 134-137). -/
def token_contract_satisfied (token_app : App) (tx : Transaction) : Bool :=
  can_mint_token token_app tx || can_execute_subscription_payment token_app tx

/-- fn nft_contract_satisfied (lib.rs lines 89-97).  A panic inside
can_mint_nft propagates. -/
def nft_contract_satisfied (app : App) (tx : Transaction) (w : Data) : Option Bool :=
  match can_mint_nft app tx w with
  | none => none
  | some b => some (b || can_mint_token (tokenAppOf app) tx)

/-- fn app_contract (lib.rs lines 73-86), the dispatch entry point
(evaluate).  none models an abort: the assert on a non-empty public input,
the unreachable arm for a tag outside NFT/TOKEN, and any panic propagating
from a validator. -/
def app_contract (app : App) (tx : Transaction) (x w : Data) : Option Bool :=
  if x = Data.empty then
    if app.tag = NFT then nft_contract_satisfied app tx w
    else if app.tag = TOKEN then some (token_contract_satisfied app tx)
    else none
  else none

-- ## Spec-side predicates (named definitions following the specification's
-- words, for comparison with the source-translated validators above)

/-- The six conditions of the spec's full-state payment check (spec section
4.6), stated on the decoded in/out states: both active; immutable terms
unchanged; balance decreases by exactly one cycle's amount with underflow a
failure; balance non-increasing; payment marker not moving backward; and
total TOKEN amounts equal across inputs and outputs with any summation
failure failing the validator. -/
def spec_payment_full_conditions (token_app : App) (tx : Transaction)
    (i o : MinimalSubscriptionState) : Prop :=
  (i.is_active = true ∧ o.is_active = true) ∧
  (i.payer_pubkey = o.payer_pubkey ∧ i.merchant_pubkey = o.merchant_pubkey ∧
   i.amount_sats = o.amount_sats ∧ i.billing_interval_blocks = o.billing_interval_blocks) ∧
  (o.remaining_balance ≤ i.remaining_balance ∧
   i.remaining_balance - o.remaining_balance = i.amount_sats) ∧
  o.remaining_balance ≤ i.remaining_balance ∧
  i.last_payment_block ≤ o.last_payment_block ∧
  (∃ a, sum_token_amount token_app (insCharms tx) = some a ∧
        sum_token_amount token_app tx.outs = some a)

-- ## Concrete fixtures used by witnesses and counterexamples

/-- A concrete TOKEN application descriptor. -/
def tApp : App := ⟨TOKEN, [1], "vk"⟩

/-- The paired NFT application descriptor of tApp. -/
def nApp : App := ⟨NFT, [1], "vk"⟩

/-- A concrete consumed-output identifier. -/
def uid0 : UtxoId := ⟨"0000000000000000000000000000000000000000000000000000000000000000", 0⟩

/-- A concrete incoming subscription state for a valid payment cycle. -/
def payIn : MinimalSubscriptionState :=
  ⟨"payer", "merchant", 100, 10, 5, true, 1000⟩

/-- A concrete outgoing subscription state for a valid payment cycle. -/
def payOut : MinimalSubscriptionState :=
  ⟨"payer", "merchant", 100, 10, 6, true, 900⟩

/-- A payload that decodes only as the incoming MinimalSubscriptionState. -/
def payInData : Data := ⟨1, none, some payIn, none, none⟩

/-- A payload that decodes only as the outgoing MinimalSubscriptionState. -/
def payOutData : Data := ⟨2, none, some payOut, none, none⟩

/-- A concrete payment-cycle transaction: the certificate moves from inputs
to outputs in MinimalSubscriptionState format and no TOKEN amounts exist. -/
def payTx : Transaction :=
  ⟨[(uid0, [(nApp, payInData)])], [[(nApp, payOutData)]]⟩

/-- A payload whose NftContent decode has remaining 10. -/
def nftIn10 : Data := ⟨3, none, none, some ⟨"SUB", 10⟩, none⟩

/-- A payload whose NftContent decode has remaining 7. -/
def nftOut7 : Data := ⟨4, none, none, some ⟨"SUB", 7⟩, none⟩

/-- A payload carrying the TOKEN amount 3. -/
def tok3 : Data := ⟨5, none, none, none, some 3⟩

/-- A concrete certificate-in-inputs mint transaction: certificate remaining
drops from 10 to 7 and 3 token units are minted. -/
def mintTx : Transaction := ⟨[(uid0, [(nApp, nftIn10)])], [[(nApp, nftOut7)], [(tApp, tok3)]]⟩

/-- A payload whose NftContent decode has remaining 5. -/
def nftOut5 : Data := ⟨6, none, none, some ⟨"SUB", 5⟩, none⟩

/-- A payload carrying the TOKEN amount 5. -/
def tok5 : Data := ⟨7, none, none, none, some 5⟩

/-- A concrete initial-issuance transaction: no certificate in the inputs, a
certificate with remaining 5 and 5 token units in the outputs. -/
def issueTx : Transaction := ⟨[(uid0, [])], [[(nApp, nftOut5)], [(tApp, tok5)]]⟩

/-- A legacy-format incoming certificate payload, remaining 10. -/
def legacyIn : Data := ⟨8, none, none, some ⟨"SUB", 10⟩, none⟩

/-- A legacy-format outgoing certificate payload, remaining 8. -/
def legacyOut : Data := ⟨9, none, none, some ⟨"SUB", 8⟩, none⟩

/-- A concrete legacy-format payment transaction with equal (zero) TOKEN
sums. -/
def legacyTx : Transaction := ⟨[(uid0, [(nApp, legacyIn)])], [[(nApp, legacyOut)]]⟩

/-- The textual form of the spent ledger output whose hash becomes the
application identity in the mint witness fixtures. -/
def mintUtxoStr : String :=
  "dc78b09d767c8565c4a58a95e7ad5ee22b28fc1685535056a395dc94929cdd5f:1"

/-- The parsed form of mintUtxoStr. -/
def mintUtxoId : UtxoId :=
  ⟨"dc78b09d767c8565c4a58a95e7ad5ee22b28fc1685535056a395dc94929cdd5f", 1⟩

/-- The NFT application whose identity is the hash of mintUtxoStr. -/
def mintNftApp : App := ⟨NFT, hash mintUtxoStr, "vk"⟩

/-- A witness payload that decodes as the string mintUtxoStr. -/
def mintWitness : Data := ⟨10, some mintUtxoStr, none, none, none⟩

/-- A degenerate subscription state: inactive, zero amount, zero balance. -/
def degenerateSt : MinimalSubscriptionState := ⟨"", "", 0, 0, 0, false, 0⟩

/-- A produced payload that decodes (only) as degenerateSt. -/
def degenerateData : Data := ⟨11, none, some degenerateSt, none, none⟩

/-- A fresh-mint transaction: it spends mintUtxoId and produces exactly one
payload of the NFT application, carrying degenerateSt. -/
def freshMintTx : Transaction :=
  ⟨[(mintUtxoId, [])], [[(mintNftApp, degenerateData)]]⟩

/-- An NFT application whose identity is the hash of a witness string that is
not a valid ledger-output identifier. -/
def c4App : App := ⟨NFT, hash "x", "vk"⟩

/-- A witness payload decoding as the string "x". -/
def c4Witness : Data := ⟨12, some "x", none, none, none⟩

/-- The empty transaction. -/
def emptyTx : Transaction := ⟨[], []⟩

-- ## Erasure of MinimalSubscriptionState content (used to show which
-- decodes a validator actually reads)

/-- Drop the MinimalSubscriptionState decode of a payload, keeping every
other view unchanged. -/
def eraseMinimalData (d : Data) : Data := { d with asMinimal := none }

/-- Drop the MinimalSubscriptionState decodes across a charms map. -/
def eraseMinimalCharms (cs : Charms) : Charms :=
  cs.map (fun p => (p.1, eraseMinimalData p.2))

/-- Drop the MinimalSubscriptionState decodes across a whole transaction. -/
def eraseMinimalTx (tx : Transaction) : Transaction :=
  ⟨tx.ins.map (fun p => (p.1, eraseMinimalCharms p.2)), tx.outs.map eraseMinimalCharms⟩

/-- Modelled from the spec (refinement comparison for the Credit Supply
Validator): the spec, section 4.5, says incoming_supply/outgoing_supply are
"the remaining (or remaining_balance) field of the paired NFT payload", so
this reads the legacy remaining field or, failing that, the
MinimalSubscriptionState remaining_balance field. -/
def spec_supply_of (d : Data) : Option Nat :=
  match d.asNft with
  | some n => some n.remaining
  | none => d.asMinimal.map (fun s => s.remaining_balance)

/-- Modelled from the spec (refinement comparison): the Credit Supply
Validator as the spec, section 4.5, describes it, identical to
can_mint_token except that the supply bounds are read through
spec_supply_of. -/
def spec_can_mint_token (token_app : App) (tx : Transaction) : Bool :=
  let nft_app := nftAppOf token_app
  let incoming := (charm_values nft_app (insCharms tx)).findSome? spec_supply_of
  match (charm_values nft_app tx.outs).findSome? spec_supply_of with
  | none => false
  | some outgoing_supply =>
    match sum_token_amount token_app (insCharms tx) with
    | none => false
    | some input_token_amount =>
      match sum_token_amount token_app tx.outs with
      | none => false
      | some output_token_amount =>
        match incoming with
        | some incoming_supply =>
          decide (incoming_supply ≥ outgoing_supply) &&
            (sub64 output_token_amount input_token_amount ==
             sub64 incoming_supply outgoing_supply)
        | none =>
          (input_token_amount == 0) && (output_token_amount == outgoing_supply)

/-- A subscription state for a MinimalSubscriptionState-format certificate at
initial issuance. -/
def c5St : MinimalSubscriptionState := ⟨"p", "m", 100, 10, 0, true, 5⟩

/-- A certificate payload that decodes only in the MinimalSubscriptionState
format (no legacy NftContent decode). -/
def c5CertData : Data := ⟨13, none, some c5St, none, none⟩

/-- A payload carrying the TOKEN amount 5 (the initially locked balance). -/
def c5TokData : Data := ⟨14, none, none, none, some 5⟩

/-- An initial-issuance transaction whose certificate exists only in
MinimalSubscriptionState format. -/
def c5Tx : Transaction := ⟨[(uid0, [])], [[(nApp, c5CertData)], [(tApp, c5TokData)]]⟩

/-- An arbitrary incoming Minimal state violating every mutable-field
invariant direction: inactive, unrelated parties. -/
def c9InSt : MinimalSubscriptionState := ⟨"a", "b", 7, 1, 9, false, 999⟩

/-- An outgoing Minimal state with changed immutable fields, re-activated
subscription and increased balance. -/
def c9OutSt : MinimalSubscriptionState := ⟨"x", "y", 3, 2, 0, true, 5000⟩

/-- An input payload decoding only as c9InSt. -/
def c9InData : Data := ⟨15, none, some c9InSt, none, none⟩

/-- An output payload decoding both as c9OutSt and as a legacy NftContent
with remaining 0. -/
def c9OutData : Data := ⟨16, none, some c9OutSt, some ⟨"T", 0⟩, none⟩

/-- A transaction accepted by the dispatch entry point through the Credit
Supply (initial issuance) branch although its Minimal-format states violate
the payment invariants. -/
def c9Tx : Transaction := ⟨[(uid0, [(nApp, c9InData)])], [[(nApp, c9OutData)]]⟩

/-- A payload carrying the TOKEN amount 4 (one unit more than the permitted
mint delta of mintTx). -/
def tok4 : Data := ⟨17, none, none, none, some 4⟩

/-- mintTx altered to mint one token unit more than the certificate's supply
decrease allows. -/
def mintTxPlusOne : Transaction :=
  ⟨[(uid0, [(nApp, nftIn10)])], [[(nApp, nftOut7)], [(tApp, tok4)]]⟩

/-- A payload carrying the TOKEN amount 1. -/
def tok1 : Data := ⟨18, none, none, none, some 1⟩

/-- issueTx altered to consume one token unit although no certificate is
present in the inputs. -/
def issueTxNonzeroInput : Transaction :=
  ⟨[(uid0, [(tApp, tok1)])], [[(nApp, nftOut5)], [(tApp, tok5)]]⟩

-- ## Theorems

/-- Wrapping u64 subtraction agrees with Nat subtraction when no underflow
occurs and the minuend is in u64 range. -/
theorem sub64_of_le (a b : Nat) (ha : a < two64) (h : b ≤ a) : sub64 a b = a - b := by
  simp only [sub64, two64] at *
  omega

/-- The three arithmetic checks of the full payment validator (wrapping
balance difference equals the cycle amount, no balance increase, and the
wrapping closed form of the outgoing balance) are equivalent to the
no-underflow balance equation of the spec, for in-range u64 values. -/
theorem payment_arith_iff (i o s : Nat) (hi : i < two64) (ho : o < two64) (hs : s < two64) :
    (sub64 i o = s ∧ o ≤ i ∧ o = sub64 i s) ↔ (o ≤ i ∧ i - o = s) := by
  simp only [sub64, two64] at *
  omega

/-- validate_subscription_payment_full succeeds exactly on the spec's six
conditions, for in-range u64 balances. -/
theorem validate_full_iff (i o : MinimalSubscriptionState) (app : App) (tx : Transaction)
    (hi : i.remaining_balance < two64) (ho : o.remaining_balance < two64)
    (hs : i.amount_sats < two64) :
    validate_subscription_payment_full i o app tx = true ↔
      spec_payment_full_conditions app tx i o := by
  unfold validate_subscription_payment_full spec_payment_full_conditions
  cases hA : sum_token_amount app (insCharms tx) with
  | none =>
    simp [hA]
  | some ia =>
    cases hB : sum_token_amount app tx.outs with
    | none => simp [hA, hB]
    | some oa =>
      simp only [hA, hB, Bool.and_eq_true, beq_iff_eq, decide_eq_true_eq, ge_iff_le, and_assoc,
        Option.some.injEq]
      constructor
      · rintro ⟨h1, h2, h3, h4, h5, h6, h7, h8, h9, h10, h11⟩
        have ha := (payment_arith_iff _ _ _ hi ho hs).mp ⟨h7, h8, h9⟩
        exact ⟨h1, h2, h3, h4, h5, h6, ha.1, ha.2, ha.1, h10, ia, rfl, h11⟩
      · rintro ⟨h1, h2, h3, h4, h5, h6, h7, h8, h9, h10, a, rfl, rfl⟩
        have ha := (payment_arith_iff _ _ _ hi ho hs).mpr ⟨h7, h8⟩
        exact ⟨h1, h2, h3, h4, h5, h6, ha.1, ha.2.1, ha.2.2, h10, rfl⟩

/-- C1: for every TOKEN-application transaction whose paired NFT payload
decodes as MinimalSubscriptionState on both the consumed and the produced
side, the Payment Execution Validator's full-state check succeeds if and
only if all six conditions hold: both sides active; the four immutable
fields equal; the balance decreasing by exactly amount_sats with underflow
itself a failure; the balance non-increasing; the payment marker not moving
backward; and TOKEN sums computed successfully and equal. -/
theorem c1_payment_full_check_iff (token_app : App) (tx : Transaction)
    (inSt outSt : MinimalSubscriptionState)
    (hin : (charm_values (nftAppOf token_app) (insCharms tx)).findSome?
      (fun d => d.asMinimal) = some inSt)
    (hout : (charm_values (nftAppOf token_app) tx.outs).findSome?
      (fun d => d.asMinimal) = some outSt)
    (hi : inSt.remaining_balance < two64) (ho : outSt.remaining_balance < two64)
    (hs : inSt.amount_sats < two64) :
    can_execute_subscription_payment token_app tx = true ↔
      spec_payment_full_conditions token_app tx inSt outSt := by
  have hv : can_execute_subscription_payment token_app tx =
      validate_subscription_payment_full inSt outSt token_app tx := by
    simp only [can_execute_subscription_payment, hin, hout]
  rw [hv]
  exact validate_full_iff inSt outSt token_app tx hi ho hs

/-- Witness for C1: a concrete payment-cycle transaction satisfying the
decode and range hypotheses, at which the equivalence is realized (and both
sides hold). -/
theorem c1_payment_full_check_iff_witness :
    ((charm_values (nftAppOf tApp) (insCharms payTx)).findSome?
      (fun d => d.asMinimal) = some payIn) ∧
    ((charm_values (nftAppOf tApp) payTx.outs).findSome?
      (fun d => d.asMinimal) = some payOut) ∧
    payIn.remaining_balance < two64 ∧ payOut.remaining_balance < two64 ∧
    payIn.amount_sats < two64 ∧
    (can_execute_subscription_payment tApp payTx = true ↔
      spec_payment_full_conditions tApp payTx payIn payOut) :=
  ⟨rfl, rfl, by decide, by decide, by decide,
    c1_payment_full_check_iff tApp payTx payIn payOut rfl rfl (by decide) (by decide) (by decide)⟩

set_option maxRecDepth 100000 in
theorem hash_matches_repository_test_vector :
    hash "dc78b09d767c8565c4a58a95e7ad5ee22b28fc1685535056a395dc94929cdd5f:1" =
      [0xf5, 0x4f, 0x6d, 0x40, 0xbd, 0x4b, 0xa8, 0x08,
       0xb1, 0x88, 0x96, 0x3a, 0xe5, 0xd7, 0x27, 0x69,
       0xad, 0x52, 0x12, 0xdd, 0x1d, 0x29, 0x51, 0x7e,
       0xcc, 0x40, 0x63, 0xdd, 0x9f, 0x03, 0x3f, 0xaa] := by
  rfl

/-- C2: for every TOKEN-application transaction with the paired certificate
present (as a legacy NftContent decode) among the consumed outputs, the
Credit Supply Validator succeeds if and only if the incoming supply is at
least the outgoing supply and the minted amount (u64 difference of the
TOKEN sums) equals the supply decrease.  In particular a transaction
minting one unit more than this delta makes the right-hand side false and
is rejected (see also mint_one_extra_unit_rejected). -/
theorem c2_mint_with_certificate_iff (token_app : App) (tx : Transaction)
    (inc outg : NftContent) (ia oa : Nat)
    (hinc : (charm_values (nftAppOf token_app) (insCharms tx)).findSome?
      (fun d => d.asNft) = some inc)
    (houtg : (charm_values (nftAppOf token_app) tx.outs).findSome?
      (fun d => d.asNft) = some outg)
    (hia : sum_token_amount token_app (insCharms tx) = some ia)
    (hoa : sum_token_amount token_app tx.outs = some oa) :
    can_mint_token token_app tx = true ↔
      (outg.remaining ≤ inc.remaining ∧
       sub64 oa ia = sub64 inc.remaining outg.remaining) := by
  simp only [can_mint_token, hinc, houtg, hia, hoa, Bool.and_eq_true, decide_eq_true_eq,
    beq_iff_eq, ge_iff_le]

/-- Witness for C2: a concrete mint transaction (supply 10 to 7, three
units minted) satisfying the hypotheses, at which the equivalence is
realized. -/
theorem c2_witness :
    ((charm_values (nftAppOf tApp) (insCharms mintTx)).findSome?
      (fun d => d.asNft) = some ⟨"SUB", 10⟩) ∧
    ((charm_values (nftAppOf tApp) mintTx.outs).findSome?
      (fun d => d.asNft) = some ⟨"SUB", 7⟩) ∧
    (sum_token_amount tApp (insCharms mintTx) = some 0) ∧
    (sum_token_amount tApp mintTx.outs = some 3) ∧
    (can_mint_token tApp mintTx = true ↔
      ((7 : Nat) ≤ 10 ∧ sub64 3 0 = sub64 10 7)) :=
  ⟨rfl, rfl, rfl, rfl,
    c2_mint_with_certificate_iff tApp mintTx ⟨"SUB", 10⟩ ⟨"SUB", 7⟩ 0 3 rfl rfl rfl rfl⟩

/-- C3: for every TOKEN-application transaction with no certificate decode
among the consumed outputs but one among the produced outputs, the Credit
Supply Validator (initial issuance) succeeds if and only if the input TOKEN
sum is zero and the output TOKEN sum equals the outgoing supply; in
particular any nonzero input sum makes the right-hand side false and is
rejected (see also issuance_nonzero_input_rejected). -/
theorem c3_initial_issuance_iff (token_app : App) (tx : Transaction)
    (outg : NftContent) (ia oa : Nat)
    (hinc : (charm_values (nftAppOf token_app) (insCharms tx)).findSome?
      (fun d => d.asNft) = none)
    (houtg : (charm_values (nftAppOf token_app) tx.outs).findSome?
      (fun d => d.asNft) = some outg)
    (hia : sum_token_amount token_app (insCharms tx) = some ia)
    (hoa : sum_token_amount token_app tx.outs = some oa) :
    can_mint_token token_app tx = true ↔ (ia = 0 ∧ oa = outg.remaining) := by
  simp only [can_mint_token, hinc, houtg, hia, hoa, Bool.and_eq_true, beq_iff_eq]

/-- Witness for C3: a concrete initial-issuance transaction satisfying the
hypotheses, at which the equivalence is realized. -/
theorem c3_witness :
    ((charm_values (nftAppOf tApp) (insCharms issueTx)).findSome?
      (fun d => d.asNft) = none) ∧
    ((charm_values (nftAppOf tApp) issueTx.outs).findSome?
      (fun d => d.asNft) = some ⟨"SUB", 5⟩) ∧
    (sum_token_amount tApp (insCharms issueTx) = some 0) ∧
    (sum_token_amount tApp issueTx.outs = some 5) ∧
    (can_mint_token tApp issueTx = true ↔ ((0 : Nat) = 0 ∧ (5 : Nat) = NftContent.remaining ⟨"SUB", 5⟩)) :=
  ⟨rfl, rfl, rfl, rfl,
    c3_initial_issuance_iff tApp issueTx ⟨"SUB", 5⟩ 0 5 rfl rfl rfl rfl⟩

set_option maxRecDepth 4000 in
/-- C7: when either side's paired NFT payload fails to decode as
MinimalSubscriptionState, the Payment Execution Validator succeeds if and
only if both sides decode as legacy NftContent, the remaining supply does
not increase, and the TOKEN sums are computed successfully and equal; if the
certificate decode is absent on either side the validator fails. -/
theorem c7_legacy_payment_iff (token_app : App) (tx : Transaction)
    (hfall : (charm_values (nftAppOf token_app) (insCharms tx)).findSome?
        (fun d => d.asMinimal) = none ∨
      (charm_values (nftAppOf token_app) tx.outs).findSome?
        (fun d => d.asMinimal) = none) :
    can_execute_subscription_payment token_app tx = true ↔
      ∃ inc outg,
        (charm_values (nftAppOf token_app) (insCharms tx)).findSome?
          (fun d => d.asNft) = some inc ∧
        (charm_values (nftAppOf token_app) tx.outs).findSome?
          (fun d => d.asNft) = some outg ∧
        outg.remaining ≤ inc.remaining ∧
        ∃ a, sum_token_amount token_app (insCharms tx) = some a ∧
             sum_token_amount token_app tx.outs = some a := by
  unfold can_execute_subscription_payment
  cases hMi : (charm_values (nftAppOf token_app) (insCharms tx)).findSome?
      (fun d => d.asMinimal) with
  | some i0 =>
    cases hMo : (charm_values (nftAppOf token_app) tx.outs).findSome?
        (fun d => d.asMinimal) with
    | some o0 =>
      rcases hfall with h | h
      · rw [hMi] at h; cases h
      · rw [hMo] at h; cases h
    | none =>
      cases hNi : (charm_values (nftAppOf token_app) (insCharms tx)).findSome?
          (fun d => d.asNft) with
      | none => simp [hMi, hMo, hNi]
      | some inc =>
        cases hNo : (charm_values (nftAppOf token_app) tx.outs).findSome?
            (fun d => d.asNft) with
        | none => simp [hMi, hMo, hNi, hNo]
        | some outg =>
          cases hA : sum_token_amount token_app (insCharms tx) with
          | none => simp [hMi, hMo, hNi, hNo, hA]
          | some ia =>
            cases hB : sum_token_amount token_app tx.outs with
            | none => simp [hMi, hMo, hNi, hNo, hA, hB]
            | some oa =>
              simp only [hMi, hMo, hNi, hNo, hA, hB, Bool.and_eq_true, decide_eq_true_eq,
                beq_iff_eq, ge_iff_le, Option.some.injEq]
              constructor
              · rintro ⟨h1, h2⟩
                exact ⟨inc, outg, rfl, rfl, h1, ia, rfl, h2⟩
              · rintro ⟨i1, o1, rfl, rfl, hle, a, rfl, ha2⟩
                exact ⟨hle, ha2⟩
  | none =>
    cases hNi : (charm_values (nftAppOf token_app) (insCharms tx)).findSome?
        (fun d => d.asNft) with
    | none => simp [hMi, hNi]
    | some inc =>
      cases hNo : (charm_values (nftAppOf token_app) tx.outs).findSome?
          (fun d => d.asNft) with
      | none => simp [hMi, hNi, hNo]
      | some outg =>
        cases hA : sum_token_amount token_app (insCharms tx) with
        | none => simp [hMi, hNi, hNo, hA]
        | some ia =>
          cases hB : sum_token_amount token_app tx.outs with
          | none => simp [hMi, hNi, hNo, hA, hB]
          | some oa =>
              simp only [hMi, hNi, hNo, hA, hB, Bool.and_eq_true, decide_eq_true_eq,
                beq_iff_eq, ge_iff_le, Option.some.injEq]
              constructor
              · rintro ⟨h1, h2⟩
                exact ⟨inc, outg, rfl, rfl, h1, ia, rfl, h2⟩
              · rintro ⟨i1, o1, rfl, rfl, hle, a, rfl, ha2⟩
                exact ⟨hle, ha2⟩

/-- Witness for C7: a concrete legacy-format payment transaction with no
MinimalSubscriptionState decodes, at which the equivalence is realized. -/
theorem c7_witness :
    ((charm_values (nftAppOf tApp) (insCharms legacyTx)).findSome?
      (fun d => d.asMinimal) = none) ∧
    (can_execute_subscription_payment tApp legacyTx = true ↔
      ∃ inc outg,
        (charm_values (nftAppOf tApp) (insCharms legacyTx)).findSome?
          (fun d => d.asNft) = some inc ∧
        (charm_values (nftAppOf tApp) legacyTx.outs).findSome?
          (fun d => d.asNft) = some outg ∧
        outg.remaining ≤ inc.remaining ∧
        ∃ a, sum_token_amount tApp (insCharms legacyTx) = some a ∧
             sum_token_amount tApp legacyTx.outs = some a) :=
  ⟨rfl, c7_legacy_payment_iff tApp legacyTx (Or.inl rfl)⟩

/-- C6: the fresh-mint branch of the Certificate Issuance Validator succeeds
if and only if the witness decodes to a string whose hash equals the
application identity, that string parses as a ledger-output identifier
matching one of the consumed outputs, and exactly one produced payload
belongs to the NFT application and decodes as MinimalSubscriptionState or,
failing that, as NftContent. -/
theorem c6_fresh_mint_iff (nft_app : App) (tx : Transaction) (w : Data) :
    can_mint_nft nft_app tx w = some true ↔
      ∃ w_str, w.asStr = some w_str ∧ hash w_str = nft_app.identity ∧
        ∃ uid, UtxoId.from_str w_str = some uid ∧
          (∃ p ∈ tx.ins, p.1 = uid) ∧
          ∃ d, charm_values nft_app tx.outs = [d] ∧
            (d.asMinimal.isSome = true ∨ d.asNft.isSome = true) := by
  unfold can_mint_nft
  cases hW : w.asStr with
  | none => simp
  | some w_str =>
    simp only [Option.some.injEq]
    by_cases hH : hash w_str = nft_app.identity
    · rw [if_pos hH]
      cases hP : UtxoId.from_str w_str with
      | none => simp [hH, hP]
      | some uid =>
        dsimp only
        by_cases hIn : tx.ins.any (fun p => p.1 == uid)
        · rw [if_pos hIn]
          cases hC : charm_values nft_app tx.outs with
          | nil => simp [hH, hP, hIn]
          | cons d rest =>
            cases rest with
            | nil =>
              by_cases hM : d.asMinimal.isSome
              · simp [hH, hP, hC, hM, List.any_eq_true, beq_iff_eq] at hIn ⊢
                exact hIn
              · simp [hH, hP, hC, hM, List.any_eq_true, beq_iff_eq] at hIn ⊢
                intro h
                exact hIn
            | cons d2 rest2 => simp [hH, hP, hIn, hC]
        · rw [if_neg hIn]
          simp only [List.any_eq_true, beq_iff_eq] at hIn
          simp [hH, hP]
          intro cs hmem
          exact (hIn ⟨(uid, cs), hmem, rfl⟩).elim
    · rw [if_neg hH]
      simp [hH]

/-- C10: the fresh-mint branch places no semantic constraint on the minted
certificate's field values: any produced payload decoding as some
MinimalSubscriptionState (the state st is universally quantified, including
inactive or zero-balance states) passes the payload-shape check, provided
only the witness-hash binding, spent-output match, and exactly-one-output
conditions. -/
theorem c10_no_semantic_constraint_at_issuance (nft_app : App) (tx : Transaction)
    (w : Data) (w_str : String) (uid : UtxoId) (d : Data) (st : MinimalSubscriptionState)
    (hW : w.asStr = some w_str)
    (hH : hash w_str = nft_app.identity)
    (hP : UtxoId.from_str w_str = some uid)
    (hIn : ∃ p ∈ tx.ins, p.1 = uid)
    (hC : charm_values nft_app tx.outs = [d])
    (hM : d.asMinimal = some st) :
    can_mint_nft nft_app tx w = some true := by
  unfold can_mint_nft
  rw [hW]
  dsimp only
  rw [if_pos hH, hP]
  dsimp only
  have hany : tx.ins.any (fun p => p.1 == uid) = true := by
    simp only [List.any_eq_true, beq_iff_eq]
    exact hIn
  rw [if_pos hany, hC]
  dsimp only
  rw [hM]
  rfl

set_option maxRecDepth 100000 in
/-- Witness for C10: a concrete fresh mint whose certificate is inactive
with zero amount and zero balance, accepted by the validator. -/
theorem c10_witness :
    mintWitness.asStr = some mintUtxoStr ∧
    hash mintUtxoStr = mintNftApp.identity ∧
    UtxoId.from_str mintUtxoStr = some mintUtxoId ∧
    (∃ p ∈ freshMintTx.ins, p.1 = mintUtxoId) ∧
    charm_values mintNftApp freshMintTx.outs = [degenerateData] ∧
    degenerateData.asMinimal = some degenerateSt ∧
    degenerateSt.is_active = false ∧ degenerateSt.remaining_balance = 0 ∧
    degenerateSt.amount_sats = 0 ∧
    can_mint_nft mintNftApp freshMintTx mintWitness = some true :=
  ⟨rfl, rfl, by decide, ⟨(mintUtxoId, []), by simp [freshMintTx]⟩, rfl, rfl, rfl, rfl, rfl,
    c10_no_semantic_constraint_at_issuance mintNftApp freshMintTx mintWitness mintUtxoStr
      mintUtxoId degenerateData degenerateSt rfl rfl (by decide)
      ⟨(mintUtxoId, []), by simp [freshMintTx]⟩ rfl rfl⟩

/-- can_mint_nft aborts (panics) exactly when the witness decodes to a
string whose hash matches the identity but which fails to parse as a
ledger-output identifier (the unwrap on lib.rs line 109). -/
theorem can_mint_nft_none_iff (nft_app : App) (tx : Transaction) (w : Data) :
    can_mint_nft nft_app tx w = none ↔
      ∃ s, w.asStr = some s ∧ hash s = nft_app.identity ∧
        UtxoId.from_str s = none := by
  unfold can_mint_nft
  cases hW : w.asStr with
  | none => simp
  | some s =>
    dsimp only
    by_cases hH : hash s = nft_app.identity
    · rw [if_pos hH]
      cases hP : UtxoId.from_str s with
      | none => simp [hH, hP]
      | some uid =>
        dsimp only
        constructor
        · intro h
          by_cases hIn : (tx.ins.any fun p => p.1 == uid) = true
          · rw [if_pos hIn] at h
            split at h
            · split at h <;> exact Option.noConfusion h
            · exact Option.noConfusion h
          · rw [if_neg hIn] at h
            exact Option.noConfusion h
        · rintro ⟨s1, hs1, hh1, hp1⟩
          injection hs1 with hse
          subst hse
          rw [hP] at hp1
          exact Option.noConfusion hp1
    · rw [if_neg hH]
      simp [hH]

/-- The NFT branch of dispatch aborts exactly when can_mint_nft aborts. -/
theorem nft_contract_none_iff (app : App) (tx : Transaction) (w : Data) :
    nft_contract_satisfied app tx w = none ↔ can_mint_nft app tx w = none := by
  unfold nft_contract_satisfied
  cases h : can_mint_nft app tx w <;> simp [h]

/-- C4 (amended): the dispatch entry point aborts rather than returning a
verdict in exactly three cases: a non-empty public input; an application
tag outside NFT/TOKEN; or, on the NFT path, a witness decoding to a string
whose hash equals the application identity but which does not parse as a
ledger-output identifier (the claim's original statement admitted only the
first two). -/
theorem c4_abort_characterization (app : App) (tx : Transaction) (x w : Data) :
    app_contract app tx x w = none ↔
      x ≠ Data.empty ∨
      (x = Data.empty ∧ app.tag ≠ NFT ∧ app.tag ≠ TOKEN) ∨
      (x = Data.empty ∧ app.tag = NFT ∧ ∃ s, w.asStr = some s ∧
        hash s = app.identity ∧ UtxoId.from_str s = none) := by
  unfold app_contract
  constructor
  · intro h
    by_cases hx : x = Data.empty
    · rw [if_pos hx] at h
      by_cases hn : app.tag = NFT
      · rw [if_pos hn] at h
        exact Or.inr (Or.inr ⟨hx, hn,
          (can_mint_nft_none_iff app tx w).mp ((nft_contract_none_iff app tx w).mp h)⟩)
      · by_cases ht : app.tag = TOKEN
        · rw [if_neg hn, if_pos ht] at h
          exact Option.noConfusion h
        · exact Or.inr (Or.inl ⟨hx, hn, ht⟩)
    · exact Or.inl hx
  · intro h
    rcases h with hx | ⟨hx, hn, ht⟩ | ⟨hx, hn, s, hs, hh, hp⟩
    · rw [if_neg hx]
    · rw [if_pos hx, if_neg hn, if_neg ht]
    · rw [if_pos hx, if_pos hn]
      exact (nft_contract_none_iff app tx w).mpr
        ((can_mint_nft_none_iff app tx w).mpr ⟨s, hs, hh, hp⟩)

set_option maxRecDepth 100000 in
/-- Counterexample to C4 as stated: with an empty public input and the NFT
tag -- outside the claim's two abort conditions -- a witness string whose
hash equals the identity but which is not a ledger-output identifier makes
evaluation abort instead of returning a boolean verdict. -/
theorem c4_abort_counterexample :
    c4App.tag = NFT ∧ c4Witness.asStr = some "x" ∧ hash "x" = c4App.identity ∧
    UtxoId.from_str "x" = none ∧
    app_contract c4App emptyTx Data.empty c4Witness = none :=
  ⟨rfl, rfl, rfl, rfl, by rfl⟩

/-- C8: the Subscription Cancellation Validator succeeds exactly when the
incoming state is active, the outgoing state is inactive with zero
remaining balance, and the four immutable fields are unchanged; and the
dispatch entry point's verdict is completely characterized by the three
other validators, so the cancellation validator's verdict never affects
evaluation (it is not invoked on any path). -/
theorem c8_cancellation_iff_and_unreachable :
    (∀ (i o : MinimalSubscriptionState) (tx : Transaction),
      validate_subscription_cancellation i o tx = true ↔
        (i.is_active = true ∧ o.is_active = false ∧ o.remaining_balance = 0 ∧
         i.payer_pubkey = o.payer_pubkey ∧ i.merchant_pubkey = o.merchant_pubkey ∧
         i.amount_sats = o.amount_sats ∧
         i.billing_interval_blocks = o.billing_interval_blocks)) ∧
    (∀ (app : App) (tx : Transaction) (x w : Data),
      app_contract app tx x w = some true ↔
        (x = Data.empty ∧
          ((app.tag = NFT ∧ ∃ b, can_mint_nft app tx w = some b ∧
             (b = true ∨ can_mint_token (tokenAppOf app) tx = true)) ∨
           (app.tag = TOKEN ∧
             (can_mint_token app tx = true ∨
              can_execute_subscription_payment app tx = true))))) := by
  have hNT : NFT ≠ TOKEN := by decide
  have hTN : TOKEN ≠ NFT := by decide
  constructor
  · intro i o tx
    unfold validate_subscription_cancellation
    simp [Bool.and_eq_true, beq_iff_eq, Bool.not_eq_true', and_assoc]
  · intro app tx x w
    unfold app_contract nft_contract_satisfied token_contract_satisfied
    by_cases hx : x = Data.empty
    · rw [if_pos hx]
      by_cases hn : app.tag = NFT
      · rw [if_pos hn]
        cases hm : can_mint_nft app tx w with
        | none => simp [hm, hx, hn, hNT]
        | some b => simp [hm, hx, hn, hNT, Bool.or_eq_true]
      · by_cases ht : app.tag = TOKEN
        · rw [if_neg hn, if_pos ht]
          simp [hx, ht, hTN, Bool.or_eq_true]
        · rw [if_neg hn, if_neg ht]
          simp [hx, hn, ht]
    · rw [if_neg hx]
      simp [hx]

/-- Charms lookup commutes with erasing MinimalSubscriptionState decodes. -/
theorem charmsGet_erase (app : App) (cs : Charms) :
    charmsGet app (eraseMinimalCharms cs) = (charmsGet app cs).map eraseMinimalData := by
  induction cs with
  | nil => rfl
  | cons p t ih =>
    simp only [eraseMinimalCharms, List.map_cons, charmsGet] at *
    by_cases hp : (p.1 == app) = true
    · simp only [List.find?]
      rw [hp]
      rfl
    · have hpf : (p.1 == app) = false := by simpa using hp
      simp only [List.find?]
      rw [hpf]
      exact ih

/-- Charm projection commutes with erasing MinimalSubscriptionState
decodes. -/
theorem charm_values_erase (app : App) (l : List Charms) :
    charm_values app (l.map eraseMinimalCharms) = (charm_values app l).map eraseMinimalData := by
  unfold charm_values
  rw [List.filterMap_map, List.map_filterMap]
  congr 1
  funext cs
  exact charmsGet_erase app cs

/-- The first NftContent decode is unchanged by erasing
MinimalSubscriptionState decodes. -/
theorem findSome?_asNft_erase (ds : List Data) :
    (ds.map eraseMinimalData).findSome? (fun d => d.asNft) =
      ds.findSome? (fun d => d.asNft) := by
  rw [List.findSome?_map]
  rfl

/-- TOKEN summation is unchanged by erasing MinimalSubscriptionState
decodes. -/
theorem sum_token_amount_erase (app : App) (l : List Charms) :
    sum_token_amount app (l.map eraseMinimalCharms) = sum_token_amount app l := by
  unfold sum_token_amount
  rw [List.foldl_map]
  congr 1
  funext acc cs
  rw [charmsGet_erase]
  cases acc with
  | none => rfl
  | some a =>
    cases h : charmsGet app cs with
    | none => rfl
    | some d => rfl

/-- C5 (amended): the Credit Supply Validator reads its supply bounds only
from the legacy NftContent decode of the paired NFT payload: its verdict is
invariant under erasing every MinimalSubscriptionState decode from the
transaction, so a certificate carried only in MinimalSubscriptionState
format is never recognized and its remaining_balance is never read (the
claim's original statement said either format supplies the bound). -/
theorem c5_supplies_from_legacy_decode_only (token_app : App) (tx : Transaction) :
    can_mint_token token_app (eraseMinimalTx tx) = can_mint_token token_app tx := by
  have hins : insCharms (eraseMinimalTx tx) = (insCharms tx).map eraseMinimalCharms := by
    simp [insCharms, eraseMinimalTx, List.map_map]
  have houts : (eraseMinimalTx tx).outs = tx.outs.map eraseMinimalCharms := rfl
  simp only [can_mint_token, hins, houts, charm_values_erase, findSome?_asNft_erase,
    sum_token_amount_erase]

/-- Counterexample to C5 as stated: an initial issuance whose certificate
decodes only as MinimalSubscriptionState (remaining_balance 5, TOKEN sums
0 and 5) is accepted by the spec-described validator, which reads
remaining_balance as the supply bound, but rejected by the code, which
finds no NftContent decode. -/
theorem c5_minimal_format_counterexample :
    ((charm_values (nftAppOf tApp) c5Tx.outs).findSome? (fun d => d.asMinimal) = some c5St) ∧
    sum_token_amount tApp (insCharms c5Tx) = some 0 ∧
    sum_token_amount tApp c5Tx.outs = some 5 ∧
    c5St.remaining_balance = 5 ∧
    spec_can_mint_token tApp c5Tx = true ∧
    can_mint_token tApp c5Tx = false :=
  ⟨rfl, rfl, rfl, rfl, rfl, rfl⟩

/-- C9 (amended): every transition accepted by the Payment Execution
Validator's full-state check preserves the data-model invariants: the four
immutable fields are unchanged, remaining_balance does not increase and
decreases by exactly amount_sats, and is_active is true on both sides (so
never transitions false to true).  Transactions accepted by the dispatch
entry point through the Credit Supply branch do not constrain the
MinimalSubscriptionState decodes (see the counterexample). -/
theorem c9_payment_invariants (i o : MinimalSubscriptionState) (app : App) (tx : Transaction)
    (hacc : validate_subscription_payment_full i o app tx = true)
    (hi : i.remaining_balance < two64) (ho : o.remaining_balance < two64)
    (hs : i.amount_sats < two64) :
    (i.payer_pubkey = o.payer_pubkey ∧ i.merchant_pubkey = o.merchant_pubkey ∧
     i.amount_sats = o.amount_sats ∧ i.billing_interval_blocks = o.billing_interval_blocks) ∧
    o.remaining_balance ≤ i.remaining_balance ∧
    i.remaining_balance - o.remaining_balance = i.amount_sats ∧
    i.is_active = true ∧ o.is_active = true := by
  have h := (validate_full_iff i o app tx hi ho hs).mp hacc
  obtain ⟨⟨ha1, ha2⟩, himm, ⟨hle, heq⟩, _, _, _⟩ := h
  exact ⟨himm, hle, heq, ha1, ha2⟩

/-- Witness for C9: a concrete accepted payment transition at which the
invariants are realized. -/
theorem c9_payment_invariants_witness :
    validate_subscription_payment_full payIn payOut tApp payTx = true ∧
    payIn.remaining_balance < two64 ∧ payOut.remaining_balance < two64 ∧
    payIn.amount_sats < two64 ∧
    ((payIn.payer_pubkey = payOut.payer_pubkey ∧
      payIn.merchant_pubkey = payOut.merchant_pubkey ∧
      payIn.amount_sats = payOut.amount_sats ∧
      payIn.billing_interval_blocks = payOut.billing_interval_blocks) ∧
     payOut.remaining_balance ≤ payIn.remaining_balance ∧
     payIn.remaining_balance - payOut.remaining_balance = payIn.amount_sats ∧
     payIn.is_active = true ∧ payOut.is_active = true) :=
  ⟨rfl, by decide, by decide, by decide,
    c9_payment_invariants payIn payOut tApp payTx rfl (by decide) (by decide) (by decide)⟩

/-- Counterexample to C9 as stated: a transaction accepted by evaluate
(through the Credit Supply initial-issuance branch, via an output payload
that also decodes as a legacy NftContent) whose MinimalSubscriptionState
decodes on the two sides change the immutable fields, increase the balance,
and transition is_active from false to true. -/
theorem c9_invariants_counterexample :
    app_contract tApp c9Tx Data.empty Data.empty = some true ∧
    ((charm_values (nftAppOf tApp) (insCharms c9Tx)).findSome?
      (fun d => d.asMinimal) = some c9InSt) ∧
    ((charm_values (nftAppOf tApp) c9Tx.outs).findSome?
      (fun d => d.asMinimal) = some c9OutSt) ∧
    c9InSt.is_active = false ∧ c9OutSt.is_active = true ∧
    c9InSt.payer_pubkey ≠ c9OutSt.payer_pubkey ∧
    c9InSt.amount_sats ≠ c9OutSt.amount_sats ∧
    c9InSt.remaining_balance < c9OutSt.remaining_balance :=
  ⟨rfl, rfl, rfl, rfl, rfl, by decide, by decide, by decide⟩

/-- Sanity check accompanying C2: minting one token unit more than the
certificate's supply decrease is rejected. -/
theorem mint_one_extra_unit_rejected : can_mint_token tApp mintTxPlusOne = false := by
  rfl

/-- Sanity check accompanying C3: a certificate-absent-from-inputs
transaction with a nonzero input TOKEN sum is rejected. -/
theorem issuance_nonzero_input_rejected : can_mint_token tApp issueTxNonzeroInput = false := by
  rfl

end CharmPay
